import Mathlib

/-!
Verification development for the workout-planner repository (src/app.py).

The Python source is shallowly embedded below.  Conventions used
throughout the embedding:

* Python floats are modelled as rationals.  Every concrete float
  computation the program performs on its configuration constants is
  exact at the inputs the program can reach (the division boundaries
  would only differ at values the control flow never produces), so the
  rational model agrees with IEEE evaluation everywhere it is used.
* `int(x)` applied to a non-negative float is floor, modelled by `Nat`
  division on the corresponding integer formulas.
* Calendar dates are modelled as integer day numbers (days since
  1970-01-01), via the standard civil-calendar conversion; `datetime`
  ordering and `timedelta` arithmetic become integer ordering and
  addition.
* HTTP fetches are modelled by passing the would-be response (or the
  fetching function itself) as an explicit argument.
* Strings keep Python semantics: lexicographic comparison by code
  point, case folding on ASCII letters, substring containment.
-/

namespace WorkoutPlanner

/-! ## Configuration constants (src/app.py lines 14-29) -/

/-- `PLAN_PREFIX = "eco16"` from the user configuration block. -/
def planPrefixStr : String := "eco16"

/-- `RACE_DISTANCE_KM = 16`. -/
def RACE_DISTANCE_KM : Nat := 16

/-- `PLAN_LENGTH_WEEKS = 18`. -/
def PLAN_LENGTH_WEEKS : Nat := 18

/-- `CURRENT_LONG_RUN_KM = 8`. -/
def CURRENT_LONG_RUN_KM : Nat := 8

/-- `DEFAULT_CARBS_G = 10`. -/
def DEFAULT_CARBS_G : Nat := 10

/-- `USER_LTHR = 169`. -/
def USER_LTHR : Nat := 169

/-! ## The `FUEL: <n>g` regex (src/app.py lines 104, 115)

`re.search(r"FUEL:\s*(\d+)g", text, re.IGNORECASE)` is embedded as a
left-to-right scan: at each position try to match `fuel:` case
insensitively, then any run of whitespace, then a non-empty maximal
digit run that must be immediately followed by `g` or `G`.  (Since
digits and `g` are disjoint character classes, regex backtracking can
never succeed with less than the maximal digit run, so this scan
computes exactly the regex search result.) -/

/-- ASCII whitespace accepted by the `\s` class. -/
def pyIsSpace (c : Char) : Bool :=
  c = ' ' || c = '\t' || c = '\n' || c = '\x0d' || c = '\x0b' || c = '\x0c'

/-- Digit run to the integer it denotes, as Python `int` does. -/
def digitsToNat (cs : List Char) : Nat :=
  cs.foldl (fun n c => n * 10 + (c.toNat - 48)) 0

/-- Attempt to match `FUEL:\s*(\d+)g` (case-insensitive) anchored at the
head of the character list; return the captured integer on success. -/
def fuelHere (cs : List Char) : Option Nat :=
  match cs with
  | c1 :: c2 :: c3 :: c4 :: c5 :: rest =>
    if c1.toLower = 'f' && c2.toLower = 'u' && c3.toLower = 'e'
        && c4.toLower = 'l' && c5 = ':' then
      let afterSpace := rest.dropWhile pyIsSpace
      let digits := afterSpace.takeWhile Char.isDigit
      let afterDigits := afterSpace.dropWhile Char.isDigit
      if digits.isEmpty then none
      else
        match afterDigits with
        | g :: _ => if g.toLower = 'g' then some (digitsToNat digits) else none
        | [] => none
    else none
  | _ => none

/-- `re.search` over the whole text: first position where the pattern
matches wins. -/
def searchFuel : List Char → Option Nat
  | [] => none
  | c :: rest =>
    match fuelHere (c :: rest) with
    | some n => some n
    | none => searchFuel rest

/-! ## Case-insensitive substring test (src/app.py lines 113, 128)

Python `PLAN_PREFIX.lower() in name.lower()`. -/

/-- Python substring containment on character lists. -/
def containsSub (p : List Char) (s : List Char) : Bool :=
  match s with
  | [] => p.isEmpty
  | _ :: rest => p.isPrefixOf s || containsSub p rest

/-- `s.lower()`: ASCII case folding, character by character. -/
def lowerStr (s : String) : List Char :=
  s.data.map Char.toLower

/-- Case-insensitive substring test, `p.lower() in s.lower()`. -/
def containsCI (p s : String) : Bool :=
  containsSub (lowerStr p) (lowerStr s)

/-! ## External records -/

/-- An activity record as used by the analyzer: `id`, `name` (absent
modelled as `""` following `a.get('name','')`), its
`start_date_local` ISO string, and optional `description`. -/
structure Activity where
  id : Nat
  name : String
  start_date_local : String
  description : Option String
deriving DecidableEq

/-- A calendar event record; absent `name`/`description` fields are
modelled by `""` following `event.get(..., '')`. -/
structure CalEvent where
  name : String
  description : String
deriving DecidableEq

/-! ## Dose recovery (src/app.py `get_last_fuel_amount`, lines 94-120) -/

/-- Python string `<`: lexicographic comparison by code point. -/
def pyStrLtb : List Char → List Char → Bool
  | [], [] => false
  | [], _ :: _ => true
  | _ :: _, [] => false
  | c :: cs, d :: ds =>
    if c.toNat < d.toNat then true
    else if d.toNat < c.toNat then false
    else pyStrLtb cs ds

/-- Python string `<` on strings. -/
def pyStrLt (a b : String) : Bool := pyStrLtb a.data b.data

/-- One insertion step of a stable descending sort by
`start_date_local` (ties keep the earlier element first), so that
`sortByStartDesc` computes the same list as Python
`sorted(activities, key=lambda x: x['start_date_local'], reverse=True)`. -/
def insertDesc (a : Activity) : List Activity → List Activity
  | [] => [a]
  | b :: rest =>
    if pyStrLt a.start_date_local b.start_date_local then b :: insertDesc a rest
    else a :: b :: rest

/-- Stable descending sort by `start_date_local`. -/
def sortByStartDesc (l : List Activity) : List Activity :=
  l.foldr insertDesc []

/-- Dose from the activity description: `last_run.get('description')`
followed by the regex search; an absent or empty description yields no
match (empty strings are falsy in Python). -/
def descFuel (a : Activity) : Option Nat :=
  match a.description with
  | none => none
  | some d => if d = "" then none else searchFuel d.data

/-- `last_run['start_date_local'].split('T')[0]`: the prefix before
the first `T` (the whole string when no `T` occurs). -/
def runDateStr (a : Activity) : String :=
  String.mk (a.start_date_local.data.takeWhile fun c => c ≠ 'T')

/-- The calendar-lookup loop of `get_last_fuel_amount`: the first event
whose name contains the plan prefix and whose combined
description-plus-name text matches the fuel pattern supplies the dose;
otherwise the default is returned. -/
def fuelFromEvents : List CalEvent → Nat
  | [] => DEFAULT_CARBS_G
  | e :: rest =>
    if containsCI planPrefixStr e.name then
      match searchFuel (e.description ++ " " ++ e.name).data with
      | some n => n
      | none => fuelFromEvents rest
    else fuelFromEvents rest

/-- `get_last_fuel_amount(api_key, activities)`.  The calendar fetch
`fetch_events_for_date(api_key, date)` is abstracted as the function
argument `ef`.  An empty activity list returns the default (the guard
`if not activities` in the source); otherwise the most recent activity
is inspected: description first, then that date's calendar events,
then the default. -/
def get_last_fuel_amount (ef : String → List CalEvent)
    (activities : List Activity) : Nat :=
  match sortByStartDesc activities with
  | [] => DEFAULT_CARBS_G
  | last_run :: _ =>
    match descFuel last_run with
    | some n => n
    | none => fuelFromEvents (ef (runDateStr last_run))

/-! ## Glucose streams and trend computation
(src/app.py `calculate_trend`, lines 122-154) -/

/-- One element of the streams response: `type` and `data` model
`s.get('type')` / `s.get('data')`; a `data` value that is not a list
of numbers is modelled as `none`. -/
structure StreamObj where
  type : Option String
  data : Option (List ℚ)
deriving DecidableEq

/-- A streams-response element that is not a dict (skipped by
`isinstance(s, dict)`) is modelled as `none`. -/
abbrev StreamItem := Option StreamObj

/-- The assignment loop over the streams response: for each dict in
order, `type == 'time'` overwrites `t_data` and a glucose-family type
overwrites `g_data` (later elements win, exactly as the two `if`
statements in the loop body do).  Result is `(g_data, t_data)`. -/
def scanStreams (items : List StreamItem) : Option (List ℚ) × Option (List ℚ) :=
  items.foldl
    (fun gt it =>
      match it with
      | none => gt
      | some s =>
        let t := if s.type = some "time" then s.data else gt.2
        let g :=
          if s.type = some "bloodglucose" || s.type = some "glucose"
              || s.type = some "ga_smooth" then s.data
          else gt.1
        (g, t))
    (none, none)

/-- `(t_data[-1] - t_data[0]) / 3600`, the stream duration in hours. -/
def durationHr (tl : List ℚ) : ℚ := (tl.getLastD 0 - tl.headD 0) / 3600

/-- The guarded rate computation for one run:
`if g_data and t_data and len(t_data) > 1`, then the drop rate
`(g_data[-1] - g_data[0]) / duration_hr` is kept only when
`duration_hr > 0.2`. -/
def runRate (gl tl : List ℚ) : Option ℚ :=
  if gl ≠ [] ∧ 1 < tl.length then
    let delta := gl.getLastD 0 - gl.headD 0
    if 1 / 5 < durationHr tl then some (delta / durationHr tl) else none
  else none

/-- Whole per-run pipeline of the `for run in relevant_runs[:3]` loop
body: a failed or non-list streams response (`none`), or an empty one,
is skipped; otherwise the scanned glucose/time pair feeds `runRate`. -/
def runContribution (resp : Option (List StreamItem)) : Option ℚ :=
  match resp with
  | none => none
  | some items =>
    if items = [] then none
    else
      match scanStreams items with
      | (some gl, some tl) => runRate gl tl
      | _ => none

/-- Shallow embedding of `statistics.mean` on rationals. -/
def mean (l : List ℚ) : ℚ := l.sum / l.length

/-- `calculate_trend(api_key, activities)`.  The two network reads made
inside it are abstracted: `sf` yields the streams response for an
activity id (`fetch_streams`), `ef` the calendar events for a date
string (`fetch_events_for_date`, used via `get_last_fuel_amount`).
Returns `(avg_trend, current_fuel, found_data)`. -/
def calculate_trend (sf : Nat → Option (List StreamItem))
    (ef : String → List CalEvent) (activities : List Activity) :
    ℚ × Nat × Bool :=
  let relevant_runs := activities.filter fun a => containsCI planPrefixStr a.name
  if relevant_runs = [] then (0, DEFAULT_CARBS_G, false)
  else
    let current_fuel := get_last_fuel_amount ef relevant_runs
    let drop_rates :=
      (relevant_runs.take 3).filterMap fun run => runContribution (sf run.id)
    let avg_trend := if drop_rates = [] then 0 else mean drop_rates
    (avg_trend, current_fuel, true)

/-! ## Read-path fetch wrappers (src/app.py lines 65-92)

Each `fetch_*` function wraps `requests.get` in `try/except`, returns
`resp.json()` on status 200 and a fixed empty value otherwise.  The
HTTP outcome is passed explicitly: `Except.error` models a raised
exception, `Except.ok (status, body)` a response.  `fetch_streams`
returns the JSON payload `Option (List StreamItem)` where `none`
models a non-list body; its failure value `some []` is the Python
empty list. -/

/-- `fetch_recent_activities`: body on 200, `[]` on any other status or
on an exception. -/
def fetch_recent_activities
    (resp : Except Unit (Nat × List Activity)) : List Activity :=
  match resp with
  | .ok (status, body) => if status = 200 then body else []
  | .error _ => []

/-- `fetch_streams`: body on 200, the empty list on any other status or
on an exception. -/
def fetch_streams (resp : Except Unit (Nat × Option (List StreamItem))) :
    Option (List StreamItem) :=
  match resp with
  | .ok (status, body) => if status = 200 then body else some []
  | .error _ => some []

/-- `fetch_events_for_date`: body on 200, `[]` on any other status or
on an exception. -/
def fetch_events_for_date
    (resp : Except Unit (Nat × List CalEvent)) : List CalEvent :=
  match resp with
  | .ok (status, body) => if status = 200 then body else []
  | .error _ => []

/-! ## Calendar dates

`datetime.date` values are day numbers (days since 1970-01-01),
computed by the standard civil-calendar conversion.  All divisions
below are applied to non-negative operands for every date this program
constructs, so truncating, flooring and Euclidean division agree. -/

/-- Day number of the civil date `y-m-d` relative to 1970-01-01. -/
def daysFromCivil (y m d : ℤ) : ℤ :=
  let y2 := if m ≤ 2 then y - 1 else y
  let era := (if 0 ≤ y2 then y2 else y2 - 399) / 400
  let yoe := y2 - era * 400
  let mp := (m + 9) % 12
  let doy := (153 * mp + 2) / 5 + d - 1
  let doe := yoe * 365 + yoe / 4 - yoe / 100 + doy
  era * 146097 + doe - 719468

/-- Python `date.weekday()` (Monday = 0); 1970-01-01 was a Thursday. -/
def pyWeekday (z : ℤ) : ℤ := (z + 3) % 7

/-- `RACE_DATE = dt.date(2026, 6, 13)`. -/
def RACE_DATE : ℤ := daysFromCivil 2026 6 13

/-- `race_week_monday = RACE_DATE - timedelta(days=RACE_DATE.weekday())`. -/
def race_week_monday : ℤ := RACE_DATE - pyWeekday RACE_DATE

/-- `plan_start = race_week_monday - timedelta(weeks=PLAN_LENGTH_WEEKS - 1)`. -/
def plan_start : ℤ := race_week_monday - 7 * (( PLAN_LENGTH_WEEKS : ℤ) - 1)

/-! ## Workout text generation (src/app.py lines 160-191) -/

/-- `bpm_to_lthr_pct`: `floor(lo/lthr*100)` and `ceil(hi/lthr*100)`
rendered as a percentage range.  For every bpm value this program
passes, `k*100/169` is never an integer, so IEEE floor/ceil equal the
exact rational floor/ceil computed here. -/
def bpm_to_lthr_pct (bpm_range : Nat × Nat) (lthr : Nat) : String :=
  let min_pct := bpm_range.1 * 100 / lthr
  let max_pct := (bpm_range.2 * 100 + (lthr - 1)) / lthr
  toString min_pct ++ "-" ++ toString max_pct ++ "% LTHR"

/-- `format_step(duration_str, bpm_range, note_prefix="")`. -/
def format_step (duration_str : String) (bpm_range : Nat × Nat)
    (note : String := "") : String :=
  let pct_str := bpm_to_lthr_pct bpm_range USER_LTHR
  let step_core := duration_str ++ " " ++ pct_str ++ " ("
    ++ toString bpm_range.1 ++ "-" ++ toString bpm_range.2 ++ " bpm)"
  if note ≠ "" then note ++ " " ++ step_core else step_core

/-- `format_workout_text(display_title, steps, repeats=1)`. -/
def format_workout_text (display_title : String) (steps : List String)
    (repeats : Nat := 1) : String :=
  let lines := [display_title, "", "Warmup", "- 10m 66-77% LTHR (113-131 bpm)", ""]
  let lines := lines ++
    [if 1 < repeats then "Main set " ++ toString repeats ++ "x" else "Main set"]
  let lines := lines ++ steps.map (fun s => "- " ++ s)
  let lines := lines ++ ["", "Cooldown", "- 5m 56-66% LTHR (95-112 bpm)"]
  String.intercalate "\n" lines ++ "\n"

/-! ## Plan generation (src/app.py `generate_plan`, lines 193-256) -/

/-- A generated calendar entry.  `start_date_local` is
`datetime.combine(d_date, time(12, 0))`, modelled as the day number
plus the fixed minute-of-day 720. -/
structure WorkoutEvent where
  start_day : ℤ
  start_minute : Nat
  name : String
  description : String
  external_id : String
deriving DecidableEq

/-- The four weekly slots emitted by the loop body, in emission order. -/
inductive Slot where
  | tue
  | thu
  | sat
  | sun
deriving DecidableEq

/-- Day offset of each slot from the week's Monday (`+1`, `+3`, `+5`,
`+6` in the source). -/
def slotOffset : Slot → ℤ
  | .tue => 1
  | .thu => 3
  | .sat => 5
  | .sun => 6

/-- Calendar date of a slot: `week_start + offset` where
`week_start = plan_start + (week - 1) * 7`. -/
def eventDate (week : Nat) (s : Slot) : ℤ :=
  plan_start + 7 * ((week : ℤ) - 1) + slotOffset s

/-- `f"W{week:02d}"`: zero-padded two-digit week number. -/
def pad2 (n : Nat) : String :=
  if n < 10 then "0" ++ toString n else toString n

/-- `strategy_text = f"PUMP OFF - FUEL: {final_fuel_g}g every 10 minutes"`. -/
def strategyText (dose : Nat) : String :=
  "PUMP OFF - FUEL: " ++ toString dose ++ "g every 10 minutes"

/-- Tuesday quality session: odd weeks are Tempo with
`reps = 3 + int(week/18*3)` (the rational floor `week*3/18`; exact for
every odd week, where `week/6` is never an integer), even weeks are
Hills with 6 repeats.  Returns `(name, description)`. -/
def tueSession (dose week : Nat) : String × String :=
  if week % 2 ≠ 0 then
    let reps := 3 + week * 3 / PLAN_LENGTH_WEEKS
    ("W" ++ pad2 week ++ " Tue Tempo " ++ planPrefixStr,
     format_workout_text (strategyText dose)
       [format_step "8m" (155, 168), format_step "2m" (95, 112)] reps)
  else
    ("W" ++ pad2 week ++ " Tue Hills " ++ planPrefixStr,
     format_workout_text (strategyText dose)
       [format_step "2m" (155, 168) "Uphill",
        format_step "2m" (95, 112) "Downhill"] 6)

/-- Sunday long-run distance and name suffix (src/app.py lines
236-248), with `int(RACE_DISTANCE_KM * 0.5)` as `RACE_DISTANCE_KM / 2`
and `int(((RACE_DISTANCE_KM - CURRENT_LONG_RUN_KM)/15) * (week-1))` as
the rational floor `(RACE_DISTANCE_KM - CURRENT_LONG_RUN_KM) * (week - 1) / 15`
(exact: `8*(week-1)/15` is integral only at weeks this branch never
receives). -/
def sundayLong (week : Nat) : Nat × String :=
  if PLAN_LENGTH_WEEKS - 2 < week then
    ( RACE_DISTANCE_KM / 2, " [TAPER]")
  else if week = PLAN_LENGTH_WEEKS - 2 then
    ( RACE_DISTANCE_KM, " [RACE TEST]")
  else if week % 4 = 0 then
    ( CURRENT_LONG_RUN_KM, " [RECOVERY]")
  else
    let km := CURRENT_LONG_RUN_KM
      + ( RACE_DISTANCE_KM - CURRENT_LONG_RUN_KM) * (week - 1) / 15
    (if RACE_DISTANCE_KM < km then RACE_DISTANCE_KM else km, "")

/-- The event each slot of a week would contribute (before the
`d_date >= cutoff_date` filter), translated field by field from the
four blocks of the loop body. -/
def eventForSlot (dose week : Nat) : Slot → WorkoutEvent
  | .tue =>
    let nd := tueSession dose week
    { start_day := eventDate week .tue, start_minute := 720,
      name := nd.1, description := nd.2,
      external_id := planPrefixStr ++ "-tue-" ++ toString week }
  | .thu =>
    let dur := 40 + week * 20 / PLAN_LENGTH_WEEKS
    { start_day := eventDate week .thu, start_minute := 720,
      name := "W" ++ pad2 week ++ " Thu Easy " ++ planPrefixStr,
      description := format_workout_text (strategyText dose)
        [format_step (toString dur ++ "m") (113, 131)] 1,
      external_id := planPrefixStr ++ "-thu-" ++ toString week }
  | .sat =>
    { start_day := eventDate week .sat, start_minute := 720,
      name := "W" ++ pad2 week ++ " Sat Bonus (Optional) " ++ planPrefixStr,
      description := format_workout_text (strategyText dose)
        [format_step "30m" (95, 112)] 1,
      external_id := planPrefixStr ++ "-sat-" ++ toString week }
  | .sun =>
    let ks := sundayLong week
    { start_day := eventDate week .sun, start_minute := 720,
      name := "W" ++ pad2 week ++ " Sun LR (" ++ toString ks.1 ++ "km)"
        ++ ks.2 ++ " " ++ planPrefixStr,
      description := format_workout_text (strategyText dose ++ " (Trail)")
        [format_step (toString ks.1 ++ "km") (120, 145)] 1,
      external_id := planPrefixStr ++ "-sun-" ++ toString week }

/-- The iteration order of the generation loop: weeks `1..18`, and
within a week the Tue, Thu, Sat, Sun blocks in source order. -/
def planSlots : List (Nat × Slot) :=
  (List.range' 1 PLAN_LENGTH_WEEKS).flatMap
    fun w => [(w, .tue), (w, .thu), (w, .sat), (w, .sun)]

/-- `generate_plan(final_fuel_g)`.  The source takes the cutoff from
`dt.date.today()`; here `today` is the explicit reference-date
argument, per the component contract.  Each candidate event is emitted
exactly when `d_date >= cutoff_date`. -/
def generate_plan (dose : Nat) (today : ℤ) : List WorkoutEvent :=
  planSlots.filterMap fun p =>
    if today ≤ eventDate p.1 p.2 then some (eventForSlot dose p.1 p.2) else none

/-! ## Spec-side definitions used for refinement comparisons -/

/-- The specification's invariant describes the external identifier as
a function of the plan prefix, the weekday role and the week number
alone; this definition follows those words. -/
def extIdOf (s : Slot) (w : Nat) : String :=
  planPrefixStr ++ "-"
    ++ (match s with | .tue => "tue" | .thu => "thu" | .sat => "sat" | .sun => "sun")
    ++ "-" ++ toString w

/-- The skip condition for a fetched stream, written from the spec's
words as amended: the response is missing or malformed (failed fetch,
non-list body, empty body, not-a-dict entries leaving no glucose or no
time series), or the glucose series is empty, or there are fewer than
two time samples, or the total duration is at most 0.2 hours. -/
def skipsStream (resp : Option (List StreamItem)) : Bool :=
  match resp with
  | none => true
  | some items =>
    items.isEmpty ||
      match scanStreams items with
      | (some gl, some tl) =>
        gl.isEmpty || decide (tl.length < 2) || decide (durationHr tl ≤ 1 / 5)
      | _ => true

/-! ## Helper lemmas -/

theorem length_insertDesc (a : Activity) (l : List Activity) :
    (insertDesc a l).length = l.length + 1 := by
  induction l with
  | nil => rfl
  | cons b rest ih =>
    unfold insertDesc
    split
    · simp [ih]
    · simp

theorem length_sortByStartDesc (l : List Activity) :
    (sortByStartDesc l).length = l.length := by
  induction l with
  | nil => rfl
  | cons y ys ih =>
    show (insertDesc y (sortByStartDesc ys)).length = ys.length + 1
    rw [length_insertDesc, ih]

theorem pyStrLtb_irrefl (l : List Char) : pyStrLtb l l = false := by
  induction l with
  | nil => rfl
  | cons c cs ih =>
    unfold pyStrLtb
    simp [ih]

theorem pyStrLtb_asymm (l1 l2 : List Char) (h : pyStrLtb l1 l2 = true) :
    pyStrLtb l2 l1 = false := by
  induction l1 generalizing l2 with
  | nil =>
    cases l2 with
    | nil => simp [pyStrLtb] at h
    | cons d ds => rfl
  | cons c cs ih =>
    cases l2 with
    | nil => simp [pyStrLtb] at h
    | cons d ds =>
      unfold pyStrLtb at h ⊢
      by_cases h1 : c.toNat < d.toNat
      · rw [if_neg (show ¬ d.toNat < c.toNat by omega), if_pos h1]
      · by_cases h2 : d.toNat < c.toNat
        · rw [if_neg h1, if_pos h2] at h
          exact absurd h (by simp)
        · rw [if_neg h1, if_neg h2] at h
          rw [if_neg h2, if_neg h1]
          exact ih ds h

theorem pyStrLtb_negtrans (l1 l2 l3 : List Char) (h1 : pyStrLtb l1 l2 = false)
    (h2 : pyStrLtb l2 l3 = false) : pyStrLtb l1 l3 = false := by
  induction l1 generalizing l2 l3 with
  | nil =>
    cases l2 with
    | nil => exact h2
    | cons d ds => simp [pyStrLtb] at h1
  | cons c cs ih =>
    cases l3 with
    | nil => cases cs <;> rfl
    | cons e es =>
      cases l2 with
      | nil => simp [pyStrLtb] at h2
      | cons d ds =>
        unfold pyStrLtb at h1 h2 ⊢
        by_cases hcd : c.toNat < d.toNat
        · simp [if_pos hcd] at h1
        · by_cases hde : d.toNat < e.toNat
          · simp [if_pos hde] at h2
          · by_cases hce : c.toNat < e.toNat
            · omega
            · rw [if_neg hce]
              by_cases hec : e.toNat < c.toNat
              · simp [if_pos hec]
              · rw [if_neg hec]
                have hdc : ¬ d.toNat < c.toNat := by omega
                have hed : ¬ e.toNat < d.toNat := by omega
                rw [if_neg hcd, if_neg hdc] at h1
                rw [if_neg hde, if_neg hed] at h2
                exact ih ds es h1 h2

theorem sortByStartDesc_head_max (l : List Activity) (last : Activity)
    (rest : List Activity) (h : sortByStartDesc l = last :: rest) :
    ∀ a ∈ l, pyStrLt last.start_date_local a.start_date_local = false := by
  induction l generalizing last rest with
  | nil => simp [sortByStartDesc] at h
  | cons y ys ih =>
    intro a ha
    rw [show sortByStartDesc (y :: ys) = insertDesc y (sortByStartDesc ys) from rfl] at h
    cases hS : sortByStartDesc ys with
    | nil =>
      have hys : ys = [] := by
        have hl := length_sortByStartDesc ys
        rw [hS] at hl
        exact List.length_eq_zero.mp hl.symm
      subst hys
      rw [hS] at h
      simp only [insertDesc, List.cons.injEq] at h
      simp only [List.mem_cons, List.not_mem_nil, or_false] at ha
      rw [ha, ← h.1]
      exact pyStrLtb_irrefl _
    | cons c r2 =>
      rw [hS] at h
      unfold insertDesc at h
      by_cases hlt : pyStrLt y.start_date_local c.start_date_local = true
      · rw [if_pos hlt] at h
        rw [List.cons.injEq] at h
        rcases List.mem_cons.mp ha with rfl | hays
        · rw [← h.1]
          exact pyStrLtb_asymm _ _ hlt
        · rw [← h.1]
          exact ih c r2 hS a hays
      · rw [Bool.not_eq_true] at hlt
        rw [if_neg (by simp [hlt])] at h
        rw [List.cons.injEq] at h
        rcases List.mem_cons.mp ha with rfl | hays
        · rw [← h.1]
          exact pyStrLtb_irrefl _
        · rw [← h.1]
          exact pyStrLtb_negtrans _ _ _ hlt (ih c r2 hS a hays)

theorem eventForSlot_start_day (dose week : Nat) (s : Slot) :
    (eventForSlot dose week s).start_day = eventDate week s := by
  cases s <;> rfl

theorem eventForSlot_extid_dose_indep (d1 d2 week : Nat) (s : Slot) :
    (eventForSlot d1 week s).external_id = (eventForSlot d2 week s).external_id := by
  cases s <;> rfl

theorem mem_planSlots (w : Nat) (s : Slot) :
    (w, s) ∈ planSlots ↔ 1 ≤ w ∧ w ≤ PLAN_LENGTH_WEEKS := by
  unfold planSlots
  rw [List.mem_flatMap]
  constructor
  · rintro ⟨a, ha, hm⟩
    rw [List.mem_range'_1] at ha
    simp only [List.mem_cons, List.not_mem_nil, or_false, Prod.mk.injEq] at hm
    rcases hm with ⟨rfl, _⟩ | ⟨rfl, _⟩ | ⟨rfl, _⟩ | ⟨rfl, _⟩ <;> omega
  · rintro ⟨h1, h2⟩
    refine ⟨w, ?_, ?_⟩
    · rw [List.mem_range'_1]
      exact ⟨h1, by omega⟩
    · cases s <;> simp

theorem map_extid_dose_indep (l : List (Nat × Slot)) (d1 d2 : Nat) (t : ℤ) :
    ((l.filterMap fun p =>
        if t ≤ eventDate p.1 p.2 then some (eventForSlot d1 p.1 p.2) else none).map
      fun e => e.external_id)
    = ((l.filterMap fun p =>
        if t ≤ eventDate p.1 p.2 then some (eventForSlot d2 p.1 p.2) else none).map
      fun e => e.external_id) := by
  induction l with
  | nil => simp only [List.filterMap_nil, List.map_nil]
  | cons p rest ih =>
    by_cases hc : t ≤ eventDate p.1 p.2
    · simp only [List.filterMap_cons, if_pos hc, List.map_cons, ih,
        eventForSlot_extid_dose_indep d1 d2 p.1 p.2]
    · simp only [List.filterMap_cons, if_neg hc]
      exact ih

/-! ## Claim theorems -/

/-- C1: the Sunday long-run distance and name suffix follow the
precedence taper / race-test / recovery / capped linear progression
(with divisor `planWeeks - 3 = 15`), and with the configured
parameters week 16 is a 16 km race test, weeks 17 and 18 are 8 km
taper runs, and week 4 is an 8 km recovery run. -/
theorem sunday_long_run_rule (dose week : Nat) (h1 : 1 ≤ week)
    (h2 : week ≤ PLAN_LENGTH_WEEKS) :
    sundayLong week =
        (if PLAN_LENGTH_WEEKS - 2 < week then
          ( RACE_DISTANCE_KM / 2, " [TAPER]")
         else if week = PLAN_LENGTH_WEEKS - 2 then
          ( RACE_DISTANCE_KM, " [RACE TEST]")
         else if week % 4 = 0 then
          ( CURRENT_LONG_RUN_KM, " [RECOVERY]")
         else
          (min ( CURRENT_LONG_RUN_KM + ( RACE_DISTANCE_KM - CURRENT_LONG_RUN_KM)
              * (week - 1) / ( PLAN_LENGTH_WEEKS - 3)) RACE_DISTANCE_KM, ""))
      ∧ (eventForSlot dose 16 .sun).name = "W16 Sun LR (16km) [RACE TEST] eco16"
      ∧ (eventForSlot dose 17 .sun).name = "W17 Sun LR (8km) [TAPER] eco16"
      ∧ (eventForSlot dose 18 .sun).name = "W18 Sun LR (8km) [TAPER] eco16"
      ∧ (eventForSlot dose 4 .sun).name = "W04 Sun LR (8km) [RECOVERY] eco16" := by
  refine ⟨?_, rfl, rfl, rfl, rfl⟩
  have h2b : week ≤ 18 := h2
  interval_cases week <;> decide

/-- Witness for C1 at week 16. -/
theorem sunday_long_run_rule_witness :
    sundayLong 16 = (16, " [RACE TEST]")
      ∧ (eventForSlot 10 16 .sun).name = "W16 Sun LR (16km) [RACE TEST] eco16"
      ∧ (eventForSlot 10 4 .sun).name = "W04 Sun LR (8km) [RECOVERY] eco16" := by
  have h := sunday_long_run_rule 10 16 (by decide) (by decide)
  exact ⟨h.1.trans (by decide), h.2.1, h.2.2.2.2⟩

/-- C2: dose recovery inspects the most recent (by start timestamp,
descending) activity; a `FUEL: <n>g` match in its description wins,
else the calendar events of that activity's date are searched (plan
prefix in the name, pattern in description plus name), else the fixed
default 10 is returned; the description "Easy run. FUEL: 15g every 10
minutes" yields dose 15. -/
theorem fuel_dose_recovery (ef : String → List CalEvent)
    (acts rest : List Activity) (last : Activity)
    (hsort : sortByStartDesc acts = last :: rest) :
    get_last_fuel_amount ef acts =
        (match descFuel last with
         | some n => n
         | none => fuelFromEvents (ef (runDateStr last)))
      ∧ (∀ a ∈ acts, pyStrLt last.start_date_local a.start_date_local = false)
      ∧ descFuel (Activity.mk 0 "" ""
          (some "Easy run. FUEL: 15g every 10 minutes")) = some 15
      ∧ (∀ evs : List CalEvent,
          (∀ e ∈ evs, searchFuel (e.description ++ " " ++ e.name).data = none) →
            fuelFromEvents evs = DEFAULT_CARBS_G) := by
  refine ⟨?_, sortByStartDesc_head_max acts last rest hsort, by decide, ?_⟩
  · unfold get_last_fuel_amount
    rw [hsort]
  · intro evs hevs
    induction evs with
    | nil => rfl
    | cons e evrest ih =>
      have hnone := hevs e (List.mem_cons_self e evrest)
      have ihr := ih fun x hx => hevs x (List.mem_cons_of_mem e hx)
      unfold fuelFromEvents
      rw [hnone]
      split <;> exact ihr

/-- Witness for C2: two activities; the later one carries the dose in
its description and is the one used. -/
theorem fuel_dose_recovery_witness :
    get_last_fuel_amount (fun _ => [])
        [Activity.mk 1 "W01 Thu Easy eco16" "2026-01-01T08:00:00" (some "no dose"),
         Activity.mk 2 "W01 Sun LR eco16" "2026-01-04T09:30:00"
           (some "Easy run. FUEL: 15g every 10 minutes")] = 15 := by
  have h := fuel_dose_recovery (fun _ => [])
    [Activity.mk 1 "W01 Thu Easy eco16" "2026-01-01T08:00:00" (some "no dose"),
     Activity.mk 2 "W01 Sun LR eco16" "2026-01-04T09:30:00"
       (some "Easy run. FUEL: 15g every 10 minutes")]
    [Activity.mk 1 "W01 Thu Easy eco16" "2026-01-01T08:00:00" (some "no dose")]
    (Activity.mk 2 "W01 Sun LR eco16" "2026-01-04T09:30:00"
       (some "Easy run. FUEL: 15g every 10 minutes"))
    (by decide)
  exact h.1.trans (by decide)

/-- C3: for an eligible stream (non-empty glucose series, at least two
time samples), the rate is `(lastGlucose - firstGlucose) / durationHours`,
kept exactly when the duration exceeds 0.2 hours and discarded when it
is at most 0.2 hours. -/
theorem trend_rate_duration_threshold (gl tl : List ℚ) (hg : gl ≠ [])
    (ht : 1 < tl.length) :
    runRate gl tl =
      if 1 / 5 < durationHr tl
      then some ((gl.getLastD 0 - gl.headD 0) / durationHr tl)
      else none := by
  unfold runRate
  rw [if_pos ⟨hg, ht⟩]

/-- Witness for C3: a 10-minute stream (t = 0 s and 600 s) is excluded,
a 13.3-minute stream (t = 0 s and 800 s) contributes
`(6 - 5) / (800 / 3600) = 9/2`. -/
theorem trend_rate_duration_threshold_witness :
    runRate [(5 : ℚ)] [0, 600] = none
      ∧ runRate [(5 : ℚ), 6] [0, 800] = some (9 / 2) := by
  constructor
  · have h := trend_rate_duration_threshold [(5 : ℚ)] [0, 600] (by simp) (by simp)
    rw [h]
    norm_num [durationHr]
  · have h := trend_rate_duration_threshold [(5 : ℚ), 6] [0, 800] (by simp) (by simp)
    rw [h]
    norm_num [durationHr]

/-- C4 counterexample: a well-formed stream with two time samples whose
total duration is exactly 12 minutes (720 s = 0.2 h) is claimed
eligible, but the trend analyzer skips it: with one matching activity
whose only stream spans exactly 720 s, the returned average rate is 0
(the stream contributed no rate; an eligible stream would have given
`(6 - 5) / 0.2 = 5`). -/
theorem twelve_minute_stream_skipped :
    calculate_trend
        (fun _ => some [some (StreamObj.mk (some "time") (some [0, 720])),
          some (StreamObj.mk (some "glucose") (some [5, 6]))])
        (fun _ => [])
        [Activity.mk 1 "W01 Sun LR eco16" "2026-01-04T09:30:00" none]
      = (0, DEFAULT_CARBS_G, true) := by
  have hrc : runContribution (some [some (StreamObj.mk (some "time") (some [0, 720])),
      some (StreamObj.mk (some "glucose") (some [5, 6]))]) = none := by
    have hscan : scanStreams [some (StreamObj.mk (some "time") (some [0, 720])),
        some (StreamObj.mk (some "glucose") (some [5, 6]))]
        = (some [5, 6], some [0, 720]) := by decide
    simp only [runContribution, hscan]
    norm_num [runRate, durationHr]
  have hfil : List.filter (fun a => containsCI planPrefixStr a.name)
      [Activity.mk 1 "W01 Sun LR eco16" "2026-01-04T09:30:00" none]
      = [Activity.mk 1 "W01 Sun LR eco16" "2026-01-04T09:30:00" none] := by decide
  have hfuel : get_last_fuel_amount (fun _ => ([] : List CalEvent))
      [Activity.mk 1 "W01 Sun LR eco16" "2026-01-04T09:30:00" none]
      = DEFAULT_CARBS_G := by decide
  simp only [calculate_trend, hfil, hfuel]
  simp [hrc]

/-- C4 as amended: a stream is skipped exactly when its response is
missing or malformed, its glucose series is empty, it has fewer than
two time samples, or its total duration is at most 0.2 hours (12
minutes); streams with duration strictly greater than 0.2 hours (and
well-formed data) are the eligible ones. -/
theorem stream_skip_characterization (resp : Option (List StreamItem)) :
    runContribution resp = none ↔ skipsStream resp = true := by
  cases resp with
  | none => simp [runContribution, skipsStream]
  | some items =>
    by_cases hi : items = []
    · simp [runContribution, skipsStream, hi]
    · have hie : items.isEmpty = false := by
        cases items with
        | nil => exact absurd rfl hi
        | cons a l => rfl
      simp only [runContribution, skipsStream, if_neg hi, hie, Bool.false_or]
      rcases hsc : scanStreams items with ⟨g, t⟩
      cases g with
      | none => cases t <;> simp
      | some gl =>
        cases t with
        | none => simp
        | some tl =>
          dsimp only
          unfold runRate
          by_cases hgl : gl = []
          · subst hgl
            simp
          · have hglE : gl.isEmpty = false := by
              cases gl with
              | nil => exact absurd rfl hgl
              | cons a l => rfl
            rw [hglE]
            by_cases hlen : 1 < tl.length
            · rw [if_pos ⟨hgl, hlen⟩]
              have hlen2 : decide (tl.length < 2) = false := by
                rw [decide_eq_false_iff_not]
                omega
              rw [hlen2]
              simp only [Bool.false_or]
              by_cases hdur : 1 / 5 < durationHr tl
              · rw [if_pos hdur]
                constructor
                · intro hx
                  exact Option.noConfusion hx
                · intro hx
                  exact absurd (of_decide_eq_true hx) (not_le.mpr hdur)
              · rw [if_neg hdur]
                constructor
                · intro _
                  exact decide_eq_true (not_lt.mp hdur)
                · intro _
                  rfl
            · rw [if_neg (fun hand => hlen hand.2)]
              have hlen2 : decide (tl.length < 2) = true := decide_eq_true (by omega)
              rw [hlen2]
              simp

/-- C10: the rate uses only the endpoints of the series: any stream
with at least two time samples spanning more than 0.2 hours and a
non-empty glucose series yields a rate, whatever the relative lengths
of the two series, and a single-sample glucose series yields rate 0. -/
theorem rate_uses_endpoints (gl tl : List ℚ) (x : ℚ) (hg : gl ≠ [])
    (ht : 1 < tl.length) (hd : 1 / 5 < durationHr tl) :
    (runRate gl tl).isSome = true ∧ runRate [x] tl = some 0 := by
  constructor
  · unfold runRate
    rw [if_pos ⟨hg, ht⟩, if_pos hd]
    rfl
  · unfold runRate
    rw [if_pos ⟨by simp, ht⟩, if_pos hd]
    simp

/-- Witness for C10: the glucose and time series have different
lengths (3 and 2), and a one-sample glucose series gives rate 0. -/
theorem rate_uses_endpoints_witness :
    (runRate [(3 : ℚ), 4, 5] [0, 800]).isSome = true
      ∧ runRate [(7 : ℚ)] [0, 800] = some 0 :=
  rate_uses_endpoints [(3 : ℚ), 4, 5] [0, 800] 7 (by simp) (by simp)
    (by norm_num [durationHr])

/-- C5: regeneration is deterministic in the upsert key: the sequence
of external identifiers is independent of the dose, and every slot's
external identifier equals the spec-side function of (plan prefix,
weekday role, week number) alone, whatever the dose and the reference
date. -/
theorem external_id_deterministic (d1 d2 : Nat) (t : ℤ) (w : Nat) (s : Slot) :
    ((generate_plan d1 t).map fun e => e.external_id)
        = ((generate_plan d2 t).map fun e => e.external_id)
      ∧ (eventForSlot d1 w s).external_id = extIdOf s w
      ∧ (eventForSlot d2 w s).external_id = extIdOf s w := by
  refine ⟨map_extid_dose_indep planSlots d1 d2 t, ?_, ?_⟩ <;> cases s <;> rfl

/-- Witness for C5 at doses 3 and 4. -/
theorem external_id_deterministic_witness :
    (eventForSlot 3 5 Slot.sun).external_id = extIdOf Slot.sun 5
      ∧ ((generate_plan 3 0).map fun e => e.external_id)
        = ((generate_plan 4 0).map fun e => e.external_id) := by
  have h := external_id_deterministic 3 4 0 5 Slot.sun
  exact ⟨h.2.1, h.1⟩

/-- C6: no generated event has a date before `today`, and each of the
four weekly slots is emitted exactly when its calendar date (the
week's Monday plus the slot's fixed offset) is on or after `today`. -/
theorem no_past_events (dose : Nat) (today : ℤ) :
    (∀ ev ∈ generate_plan dose today, today ≤ ev.start_day)
      ∧ (∀ w s, 1 ≤ w → w ≤ PLAN_LENGTH_WEEKS →
          (eventForSlot dose w s ∈ generate_plan dose today ↔
            today ≤ eventDate w s)) := by
  constructor
  · intro ev hev
    simp only [generate_plan, List.mem_filterMap] at hev
    obtain ⟨p, hp, hf⟩ := hev
    by_cases hc : today ≤ eventDate p.1 p.2
    · rw [if_pos hc] at hf
      rw [← Option.some.inj hf, eventForSlot_start_day]
      exact hc
    · rw [if_neg hc] at hf
      exact Option.noConfusion hf
  · intro w s h1 h2
    constructor
    · intro hmem
      simp only [generate_plan, List.mem_filterMap] at hmem
      obtain ⟨p, hp, hf⟩ := hmem
      by_cases hc : today ≤ eventDate p.1 p.2
      · rw [if_pos hc] at hf
        have heq := Option.some.inj hf
        have hdays : eventDate p.1 p.2 = eventDate w s := by
          rw [← eventForSlot_start_day dose p.1 p.2, ← eventForSlot_start_day dose w s,
            heq]
        rw [← hdays]
        exact hc
      · rw [if_neg hc] at hf
        exact Option.noConfusion hf
    · intro hc
      simp only [generate_plan, List.mem_filterMap]
      refine ⟨(w, s), (mem_planSlots w s).mpr ⟨h1, h2⟩, ?_⟩
      rw [if_pos hc]

/-- Witness for C6: with the reference date after the whole plan, the
week-1 Tuesday session is not emitted. -/
theorem no_past_events_witness :
    eventForSlot 12 1 Slot.tue ∉ generate_plan 12 (eventDate 19 Slot.sun) := by
  intro hmem
  have h := ((no_past_events 12 (eventDate 19 Slot.sun)).2 1 Slot.tue
    (by decide) (by decide)).mp hmem
  exact absurd h (by decide)

/-- C7: when no activity name contains the plan prefix
(case-insensitive), the trend analyzer returns exactly
`(0.0, DEFAULT_DOSE, false)` with the default dose 10. -/
theorem no_match_yields_default (sf : Nat → Option (List StreamItem))
    (ef : String → List CalEvent) (acts : List Activity)
    (h : ∀ a ∈ acts, containsCI planPrefixStr a.name = false) :
    calculate_trend sf ef acts = (0, DEFAULT_CARBS_G, false) := by
  have hf : acts.filter (fun a => containsCI planPrefixStr a.name) = [] := by
    rw [List.filter_eq_nil_iff]
    intro a ha
    simp [h a ha]
  simp only [calculate_trend, hf]
  rfl

/-- Witness for C7: one unrelated activity. -/
theorem no_match_yields_default_witness :
    calculate_trend (fun _ => none) (fun _ => [])
        [Activity.mk 1 "Morning Run" "2026-01-01T08:00:00" none]
      = (0, DEFAULT_CARBS_G, false) :=
  no_match_yields_default _ _ _ (by decide)

/-- C8: with at least one prefix-matching activity, the analyzer
returns `hasData = true` and the dose recovered from history, and the
rate is the arithmetic mean of the eligible per-stream rates — 0.0
when no stream is eligible. -/
theorem matched_trend_mean (sf : Nat → Option (List StreamItem))
    (ef : String → List CalEvent) (acts : List Activity)
    (h : acts.filter (fun a => containsCI planPrefixStr a.name) ≠ []) :
    calculate_trend sf ef acts =
      (let rel := acts.filter fun a => containsCI planPrefixStr a.name
       let rates := (rel.take 3).filterMap fun run => runContribution (sf run.id)
       ((if rates = [] then (0 : ℚ) else rates.sum / rates.length),
        get_last_fuel_amount ef rel, true)) := by
  simp only [calculate_trend, mean, if_neg h]

/-- Witness for C8: one matching activity whose streams response is the
empty list, so no stream is eligible: the result is
`(0, DEFAULT_CARBS_G, true)`. -/
theorem matched_trend_mean_witness :
    calculate_trend (fun _ => some []) (fun _ => [])
        [Activity.mk 1 "W01 Sun LR eco16" "2026-01-04T09:30:00" none]
      = (0, DEFAULT_CARBS_G, true) := by
  have h := matched_trend_mean (fun _ => some []) (fun _ => [])
    [Activity.mk 1 "W01 Sun LR eco16" "2026-01-04T09:30:00" none] (by decide)
  rw [h]
  decide

/-- C9: each read-path fetch returns the empty result both when the
HTTP call raises and when it returns a non-200 status (for
`fetch_streams` the empty result is the empty list `some []`). -/
theorem read_path_failures_empty (e : Unit) (status : Nat) (h : status ≠ 200)
    (bodyA : List Activity) (bodyS : Option (List StreamItem))
    (bodyE : List CalEvent) :
    fetch_recent_activities (Except.error e) = []
      ∧ fetch_recent_activities (Except.ok (status, bodyA)) = []
      ∧ fetch_streams (Except.error e) = some []
      ∧ fetch_streams (Except.ok (status, bodyS)) = some []
      ∧ fetch_events_for_date (Except.error e) = []
      ∧ fetch_events_for_date (Except.ok (status, bodyE)) = [] := by
  refine ⟨rfl, ?_, rfl, ?_, rfl, ?_⟩ <;>
    simp [fetch_recent_activities, fetch_streams, fetch_events_for_date, h]

/-- Witness for C9 at status 404 and an exception. -/
theorem read_path_failures_empty_witness :
    fetch_recent_activities (Except.error ()) = []
      ∧ fetch_recent_activities
          (Except.ok (404, [Activity.mk 1 "x" "2026-01-01" none])) = []
      ∧ fetch_streams (Except.error ()) = some []
      ∧ fetch_streams (Except.ok (404, none)) = some []
      ∧ fetch_events_for_date (Except.error ()) = []
      ∧ fetch_events_for_date (Except.ok (404, [CalEvent.mk "a" "b"])) = [] :=
  read_path_failures_empty () 404 (by decide) _ _ _

end WorkoutPlanner
